import Mathlib

/-!
Shallow embedding of the adaptive batch-processing core:
`batch_processor.py`, `ml_model.py`, `worker.py`, `optimized_worker.py`,
with the store semantics of `db_glue.py`.

Python floats are modelled as rationals; timestamps as integers;
nondeterministic timing (the `random.uniform(0.8, 1.2)` jitter and
`datetime.now()`) as explicit parameters threaded through the operations.
-/

unseal Rat.add Rat.mul Rat.inv Rat.sub Rat.ofScientific

namespace DataProc

/-- Python `round(q)`: nearest integer, ties go to the even integer. -/
def pyRound (q : ℚ) : ℤ :=
  let f := ⌊q⌋
  let r := q - f
  if r < 1/2 then f
  else if 1/2 < r then f + 1
  else if f % 2 = 0 then f else f + 1

/-- Python `round(q, ndigits)`. -/
def pyRoundTo (ndigits : ℕ) (q : ℚ) : ℚ :=
  (pyRound (q * 10 ^ ndigits) : ℚ) / 10 ^ ndigits

/-- A row of the `events` table (`schema` used by `db_glue.py` /
`batch_processor.py`): identity, arrival timestamp, category, size,
priority, processed flag and owning-batch reference. -/
structure Event where
  id : ℕ
  timestamp : ℤ
  event_type : ℕ
  data_size_kb : ℚ
  priority : ℕ
  processed : Bool
  batch_id : Option ℕ
deriving DecidableEq, Repr

/-- Status column of the `batches` table. -/
inductive BatchStatus
  | processing
  | completed
  | failed
deriving DecidableEq, Repr

/-- A row of the `batches` table. -/
structure Batch where
  id : ℕ
  batch_size : ℕ
  total_data_size_kb : ℚ
  started_at : ℤ
  status : BatchStatus
  processing_time_seconds : Option ℚ
  processing_cost : Option ℚ
  completed_at : Option ℤ
deriving DecidableEq, Repr

/-- A row of the `cost_metrics` table (written by `save_cost_metrics`). -/
structure CostMetric where
  batch_id : ℕ
  batch_size : ℕ
  total_data_kb : ℚ
  processing_time_seconds : ℚ
  cost_per_event : ℚ
  timestamp : ℤ
deriving DecidableEq, Repr

/-- The persistent store: the three tables plus the `SERIAL` counter
that yields the next `batches.id`. -/
structure Store where
  events : List Event
  batches : List Batch
  cost_metrics : List CostMetric
  next_batch_id : ℕ
deriving DecidableEq, Repr

/-- Log lines relevant to the mark-processed step.  The source
(`batch_processor.py` line 110) only ever emits `markedProcessed`;
`mismatchWarning` exists so that the spec's claimed warning about a
short update count can be stated at all. -/
inductive LogEntry
  | markedProcessed (rows : ℕ)
  | mismatchWarning (claimed rows : ℕ)
deriving DecidableEq, Repr

/-! ### `batch_processor.py` -/

/-- Constants set in `BatchProcessor.__init__`. -/
def FIXED_COST : ℚ := 0.10

def VARIABLE_COST_PER_EVENT : ℚ := 0.005

def PROCESSING_SPEED : ℚ := 0.02

/-- The only per-instance state of `BatchProcessor` that the claims
depend on: the configured `batch_size` (fetch limit). -/
structure BatchProcessor where
  batch_size : ℕ
deriving DecidableEq, Repr

/-- Insert one event into a list sorted by ascending timestamp. -/
def insertByTimestamp (e : Event) : List Event → List Event
  | [] => [e]
  | x :: xs =>
    if e.timestamp ≤ x.timestamp then e :: x :: xs else x :: insertByTimestamp e xs

/-- The `ORDER BY timestamp ASC` of the `get_unprocessed_events` query. -/
def sortByTimestamp : List Event → List Event
  | [] => []
  | x :: xs => insertByTimestamp x (sortByTimestamp xs)

namespace BatchProcessor

/-- The `fetch_unprocessed_events`: `SELECT * FROM events WHERE processed =
FALSE ORDER BY timestamp ASC LIMIT l`, where the limit defaults to the
processor's `batch_size`. -/
def fetch_unprocessed_events (p : BatchProcessor) (s : Store) (limit : Option ℕ) :
    List Event :=
  let lim := limit.getD p.batch_size
  (sortByTimestamp (s.events.filter (fun e => !e.processed))).take lim

/-- The dictionary built by `calculate_batch_metrics` (the per-type
counts are modelled as a count function). -/
structure BatchMetrics where
  batch_size : ℕ
  total_data_kb : ℚ
  event_types : ℕ → ℕ
  avg_data_per_event : ℚ

/-- The `calculate_batch_metrics` step. -/
def calculate_batch_metrics (events : List Event) : BatchMetrics :=
  let total_data_kb : ℚ := (events.map (·.data_size_kb)).sum
  { batch_size := events.length
    total_data_kb := pyRoundTo 2 total_data_kb
    event_types := fun t => events.countP (fun e => decide (e.event_type = t))
    avg_data_per_event :=
      if events.isEmpty then 0 else pyRoundTo 2 (total_data_kb / events.length) }

/-- The `simulate_processing`: `round(total_data_kb * PROCESSING_SPEED *
jitter + 0.5, 2)` where `jitter` stands for `random.uniform(0.8, 1.2)`.
The `batch_size` argument is only printed by the source. -/
def simulate_processing (total_data_kb : ℚ) (batch_size : ℕ) (jitter : ℚ) : ℚ :=
  let base_time := total_data_kb * PROCESSING_SPEED
  let processing_time := base_time * jitter + 0.5
  pyRoundTo 2 processing_time

/-- The `calculate_cost`: the returned value is `round(FIXED_COST +
VARIABLE_COST_PER_EVENT * batch_size, 4)`; the `processing_time`
argument and the per-event cost computed inside are only printed. -/
def calculate_cost (batch_size : ℕ) (processing_time : ℚ) : ℚ :=
  let fixed_cost := FIXED_COST
  let variable_cost := VARIABLE_COST_PER_EVENT * batch_size
  let total_cost := fixed_cost + variable_cost
  pyRoundTo 4 total_cost

/-- The `create_batch_record`: `INSERT INTO batches ... RETURNING id` with
`started_at = now` and status `processing`. -/
def create_batch_record (s : Store) (batch_size : ℕ) (total_data_kb : ℚ)
    (now : ℤ) : ℕ × Store :=
  let batch_id := s.next_batch_id
  (batch_id,
    { s with
      batches := s.batches ++
        [{ id := batch_id
           batch_size := batch_size
           total_data_size_kb := total_data_kb
           started_at := now
           status := .processing
           processing_time_seconds := none
           processing_cost := none
           completed_at := none }]
      next_batch_id := batch_id + 1 })

/-- The `mark_events_as_processed`: `UPDATE events SET processed = TRUE,
batch_id = b WHERE id IN ids`; returns the updated store, the
`rowcount` returned by `execute_query`, and the emitted log lines. -/
def mark_events_as_processed (s : Store) (event_ids : List ℕ) (batch_id : ℕ) :
    Store × ℕ × List LogEntry :=
  let updated := s.events.map fun e =>
    if e.id ∈ event_ids then { e with processed := true, batch_id := some batch_id } else e
  let rows_updated := s.events.countP (fun e => decide (e.id ∈ event_ids))
  ({ s with events := updated }, rows_updated, [.markedProcessed rows_updated])

/-- The `update_batch_record`: set duration, cost, completion timestamp and
status `completed` on the batch row. -/
def update_batch_record (s : Store) (batch_id : ℕ) (processing_time cost : ℚ)
    (now : ℤ) : Store :=
  { s with
    batches := s.batches.map fun b =>
      if b.id = batch_id then
        { b with
          processing_time_seconds := some processing_time
          processing_cost := some cost
          completed_at := some now
          status := .completed }
      else b }

/-- The `save_cost_metrics`: append a `cost_metrics` row with
`cost_per_event = cost / batch_size if batch_size > 0 else 0`. -/
def save_cost_metrics (s : Store) (batch_id : ℕ) (batch_size : ℕ)
    (total_data_kb processing_time cost : ℚ) (now : ℤ) : Store :=
  let cost_per_event := if 0 < batch_size then cost / batch_size else 0
  { s with
    cost_metrics := s.cost_metrics ++
      [{ batch_id := batch_id
         batch_size := batch_size
         total_data_kb := total_data_kb
         processing_time_seconds := processing_time
         cost_per_event := cost_per_event
         timestamp := now }] }

/-- The result dictionary of `process_batch`. -/
structure BatchResult where
  batch_id : ℕ
  events_processed : ℕ
  total_data_kb : ℚ
  processing_time : ℚ
  cost : ℚ
  cost_per_event : ℚ
deriving DecidableEq, Repr

/-- The `process_batch`: the eight-step pipeline.  Returns the optional
result dictionary, the final store and the log lines of step 6. -/
def process_batch (p : BatchProcessor) (s : Store) (now : ℤ) (jitter : ℚ) :
    Option BatchResult × Store × List LogEntry :=
  let events := p.fetch_unprocessed_events s none
  if events.isEmpty then (none, s, [])
  else
    let metrics := calculate_batch_metrics events
    let (batch_id, s1) := create_batch_record s metrics.batch_size metrics.total_data_kb now
    let processing_time := simulate_processing metrics.total_data_kb metrics.batch_size jitter
    let cost := calculate_cost metrics.batch_size processing_time
    let event_ids := events.map (·.id)
    let (s2, _rows_updated, log) := mark_events_as_processed s1 event_ids batch_id
    let s3 := update_batch_record s2 batch_id processing_time cost now
    let s4 := save_cost_metrics s3 batch_id metrics.batch_size metrics.total_data_kb
      processing_time cost now
    (some
      { batch_id := batch_id
        events_processed := metrics.batch_size
        total_data_kb := metrics.total_data_kb
        processing_time := processing_time
        cost := cost
        cost_per_event := pyRoundTo 4 (cost / metrics.batch_size) },
      s4, log)

end BatchProcessor

/-! ### `ml_model.py` -/

/-- The `BatchOptimizer` state: the trained flag, and the opaque predictor
artifact.  `model` stands for the composite `scaler.transform` followed
by `model.predict` on the five-feature row `(total_data_kb,
avg_data_per_event, hour_of_day, last_processing_time,
last_cost_per_event)`, returning the raw (real-valued) prediction. -/
structure BatchOptimizer where
  is_trained : Bool
  model : ℚ → ℚ → ℚ → ℚ → ℚ → ℚ

namespace BatchOptimizer

/-- The `predict_optimal_batch_size` (`ml_model.py` lines 242-286): default
50 when untrained, otherwise the raw prediction rounded to the nearest
10 via `round(x / 10) * 10` and constrained by `max(20, min(200, _))`. -/
def predict_optimal_batch_size (o : BatchOptimizer) (total_data_kb : ℚ)
    (avg_data_per_event : ℚ) (hour_of_day : ℕ) (last_processing_time : ℚ)
    (last_cost_per_event : ℚ) : ℤ :=
  if !o.is_trained then 50
  else
    let predicted_size :=
      o.model total_data_kb avg_data_per_event hour_of_day last_processing_time
        last_cost_per_event
    let rounded := pyRound (predicted_size / 10) * 10
    max 20 (min 200 rounded)

end BatchOptimizer

/-! ### `optimized_worker.py` -/

/-- The smart worker's `stats` dictionary. -/
structure SmartStats where
  total_batches_processed : ℕ
  total_events_processed : ℕ
  total_cost : ℚ
  ml_predictions_used : ℕ
  started_at : Option ℤ
  last_batch_at : Option ℤ
deriving DecidableEq, Repr

/-- Stats as reset in `SmartBackGroundWorker.__init__`. -/
def initSmartStats : SmartStats :=
  { total_batches_processed := 0
    total_events_processed := 0
    total_cost := 0
    ml_predictions_used := 0
    started_at := none
    last_batch_at := none }

/-- The `SmartBackGroundWorker` state. -/
structure SmartWorker where
  interval_seconds : ℕ
  is_running : Bool
  optimizer : BatchOptimizer
  ml_enabled : Bool
  stats : SmartStats

/-- The `SELECT COUNT(*) FROM events WHERE processed = FALSE`. -/
def unprocessed_count (s : Store) : ℕ :=
  s.events.countP (fun e => !e.processed)

/-- The `SUM(data_size_kb)` over the unprocessed events (`NULL`, i.e. no
row, only when there are none). -/
def unprocessed_total_kb (s : Store) : ℚ :=
  ((s.events.filter (fun e => !e.processed)).map (·.data_size_kb)).sum

/-- The `SELECT ... FROM batches WHERE status = 'completed' ORDER BY id
DESC LIMIT 1`: the completed batch with the greatest id. -/
def recent_completed_batch (s : Store) : Option Batch :=
  (s.batches.filter (fun b => decide (b.status = .completed))).foldl
    (fun acc b =>
      match acc with
      | none => some b
      | some a => if a.id < b.id then some b else some a)
    none

namespace SmartWorker

/-- The `get_smart_batch_size` (`optimized_worker.py` lines 44-102).
Returns the chosen size together with the worker's stats after the
call (the source mutates `self.stats['ml_predictions_used']` in
place).  `hour` stands for `datetime.now().hour`.  Python's `x or d`
idiom maps `NULL`/zero to the default. -/
def get_smart_batch_size (w : SmartWorker) (s : Store) (hour : ℕ) :
    ℤ × SmartStats :=
  let cnt := unprocessed_count s
  if cnt = 0 then (50, w.stats)
  else
    match recent_completed_batch s with
    | none => (50, w.stats)
    | some last_batch =>
      let sum_kb := unprocessed_total_kb s
      let total_data_kb : ℚ := if cnt = 0 ∨ sum_kb = 0 then 0 else sum_kb
      let avg_kb : ℚ := sum_kb / cnt
      let avg_data_kb : ℚ := if cnt = 0 ∨ avg_kb = 0 then 15.0 else avg_kb
      let last_processing_time : ℚ :=
        match last_batch.processing_time_seconds with
        | none => 5.0
        | some t => if t = 0 then 5.0 else t
      let predicted_size :=
        w.optimizer.predict_optimal_batch_size total_data_kb avg_data_kb hour
          last_processing_time 0.007
      (predicted_size,
        { w.stats with ml_predictions_used := w.stats.ml_predictions_used + 1 })

/-- One iteration of `_worker_loop` (lines 115-137, the `try` body up
to the sleep): pick a size, run `process_batch` on a processor built
with it, and update the stats on a non-empty result. -/
def iteration (w : SmartWorker) (s : Store) (hour : ℕ) (now : ℤ) (jitter : ℚ) :
    SmartWorker × Store × Option BatchProcessor.BatchResult :=
  let (batch_size, stats1) := w.get_smart_batch_size s hour
  let processor : BatchProcessor := { batch_size := batch_size.toNat }
  let (result, s2, _log) := processor.process_batch s now jitter
  match result with
  | some r =>
    ({ w with
        stats :=
          { stats1 with
            total_batches_processed := stats1.total_batches_processed + 1
            total_events_processed := stats1.total_events_processed + r.events_processed
            total_cost := stats1.total_cost + r.cost
            last_batch_at := some now } },
      s2, some r)
  | none => ({ w with stats := stats1 }, s2, none)

end SmartWorker

/-! ### `worker.py` -/

/-- The plain worker's `stats` dictionary. -/
structure WorkerStats where
  total_batches_processed : ℕ
  total_events_processed : ℕ
  total_cost : ℚ
  started_at : Option ℤ
  last_batch_at : Option ℤ
deriving DecidableEq, Repr

/-- The `BackgroundWorker` state. -/
structure BackgroundWorker where
  processor : BatchProcessor
  interval_seconds : ℕ
  is_running : Bool
  stats : WorkerStats
deriving DecidableEq, Repr

namespace BackgroundWorker

/-- The `start` (`worker.py` lines 89-103): no-op when already running;
otherwise set the running flag and spawn the loop thread, whose first
action (`worker.py` line 52) sets `stats['started_at']` to now. -/
def start (w : BackgroundWorker) (now : ℤ) : BackgroundWorker :=
  if w.is_running then w
  else
    { w with
      is_running := true
      stats := { w.stats with started_at := some now } }

/-- The `stop` (`worker.py` lines 105-119): no-op when not running;
otherwise clear the running flag (and join with a timeout, which
touches no stats). -/
def stop (w : BackgroundWorker) : BackgroundWorker :=
  if w.is_running then { w with is_running := false } else w

/-- The snapshot returned by `get_stats`, with the derived
`runtime_seconds = now - started_at` when a start time exists. -/
structure StatsSnapshot where
  total_batches_processed : ℕ
  total_events_processed : ℕ
  total_cost : ℚ
  started_at : Option ℤ
  last_batch_at : Option ℤ
  runtime_seconds : Option ℤ
deriving DecidableEq, Repr

/-- The `get_stats` (`worker.py` lines 121-132). -/
def get_stats (w : BackgroundWorker) (now : ℤ) : StatsSnapshot :=
  { total_batches_processed := w.stats.total_batches_processed
    total_events_processed := w.stats.total_events_processed
    total_cost := w.stats.total_cost
    started_at := w.stats.started_at
    last_batch_at := w.stats.last_batch_at
    runtime_seconds := w.stats.started_at.map (fun t0 => now - t0) }

end BackgroundWorker

/-! ### Exception dispatch of the two worker loops

The loop bodies are `try` blocks whose handlers decide whether the
loop sleeps and re-enters, breaks, or lets the exception escape.  The
abstract exception type distinguishes Python's `KeyboardInterrupt`,
the `Exception` class (carrying an arbitrary payload), and the
remaining `BaseException` subclasses, which match neither handler. -/

/-- An exception arising inside one loop iteration. -/
inductive PyExc
  | keyboardInterrupt
  | exceptionClass (payload : ℕ)
  | otherBaseException (payload : ℕ)
deriving DecidableEq, Repr

/-- What becomes of one iteration of a worker loop. -/
inductive IterOutcome
  | sleepContinue
  | breakLoop
  | propagate
deriving DecidableEq, Repr

/-- Dispatch of `BackgroundWorker._worker_loop` (`worker.py` lines
54-82): normal body reaches `time.sleep` and re-enters; `except
KeyboardInterrupt` prints and `break`s; `except Exception` prints,
sleeps and re-enters; anything else is unhandled. -/
def worker_loop_dispatch : Option PyExc → IterOutcome
  | none => .sleepContinue
  | some .keyboardInterrupt => .breakLoop
  | some (.exceptionClass _) => .sleepContinue
  | some (.otherBaseException _) => .propagate

/-- Dispatch of `SmartBackGroundWorker._worker_loop`
(`optimized_worker.py` lines 115-145): the `except KeyboardInterrupt`
handler evaluates `print(f"... {e}")` with `e` unbound, so the handler
itself raises `NameError`, which no sibling handler catches and which
therefore escapes the loop; `except Exception` prints, sleeps and
re-enters; anything else is unhandled. -/
def smart_loop_dispatch : Option PyExc → IterOutcome
  | none => .sleepContinue
  | some .keyboardInterrupt => .propagate
  | some (.exceptionClass _) => .sleepContinue
  | some (.otherBaseException _) => .propagate

/-! ### Concrete instances used by witnesses and counterexamples -/

/-- An optimizer holding a trained artifact whose raw prediction is
the constant 137. -/
def trainedO : BatchOptimizer := ⟨true, fun _ _ _ _ _ => 137⟩

/-- A worker whose optimizer holds no trained model. -/
def untrainedW : SmartWorker :=
  { interval_seconds := 30
    is_running := true
    optimizer := ⟨false, fun _ _ _ _ _ => 0⟩
    ml_enabled := false
    stats := initSmartStats }

/-- A store with no rows at all. -/
def emptyStore : Store := ⟨[], [], [], 1⟩

/-- A store holding a single 10 KB unprocessed event. -/
def oneEventStore : Store :=
  ⟨[{ id := 1, timestamp := 0, event_type := 0, data_size_kb := 10,
      priority := 0, processed := false, batch_id := none }], [], [], 1⟩

/-- The result dictionary `process_batch` computes on `oneEventStore`
with unit jitter. -/
def oneEventResult : BatchProcessor.BatchResult :=
  { batch_id := 1
    events_processed := 1
    total_data_kb := 10
    processing_time := 0.7
    cost := 0.105
    cost_per_event := 0.105 }

/-- A store with one unprocessed 10 KB event and one completed batch,
so that `get_smart_batch_size` reaches the predictor call. -/
def oneEventOneBatchStore : Store :=
  ⟨[{ id := 1, timestamp := 0, event_type := 0, data_size_kb := 10,
      priority := 0, processed := false, batch_id := none }],
    [{ id := 1, batch_size := 5, total_data_size_kb := 50, started_at := 0,
       status := .completed, processing_time_seconds := some 2,
       processing_cost := some 0.125, completed_at := some 1 }],
    [], 2⟩

/-- Twenty-three pending events of 20 KB each (460 KB in total). -/
def store23 : Store :=
  ⟨(List.range 23).map fun i =>
      { id := i + 1, timestamp := (i : ℤ), event_type := 0, data_size_kb := 20,
        priority := 0, processed := false, batch_id := none },
    [], [], 1⟩

/-! ### Helper lemmas -/

/-- The `pyRound` fixes integers. -/
theorem pyRound_intCast (n : ℤ) : pyRound (n : ℚ) = n := by
  unfold pyRound
  rw [Int.floor_intCast]
  norm_num

/-- The `pyRoundTo` fixes rationals that are integer multiples of
`10 ^ -ndigits`. -/
theorem pyRoundTo_eq_self (d : ℕ) (q : ℚ) (n : ℤ) (h : q * 10 ^ d = (n : ℚ)) :
    pyRoundTo d q = q := by
  unfold pyRoundTo
  rw [h, pyRound_intCast, ← h]
  field_simp

end DataProc

namespace DataProc

/-! ## C1 -/

/-- C1: for every batch size `s` and durations `t1`, `t2`,
`calculate_cost s t1 = calculate_cost s t2`, and both equal the linear
model `FIXED_COST + VARIABLE_COST_PER_EVENT * s` rounded to 4 decimals
(which is exactly `0.10 + 0.005 * s`): the returned cost never depends
on the processing-time argument. -/
theorem calculate_cost_duration_independent (s : ℕ) (t1 t2 : ℚ) :
    BatchProcessor.calculate_cost s t1 = BatchProcessor.calculate_cost s t2 ∧
    BatchProcessor.calculate_cost s t1 =
      pyRoundTo 4 (FIXED_COST + VARIABLE_COST_PER_EVENT * s) ∧
    BatchProcessor.calculate_cost s t1 = 0.10 + 0.005 * s := by
  refine ⟨rfl, rfl, ?_⟩
  show pyRoundTo 4 (FIXED_COST + VARIABLE_COST_PER_EVENT * s) = 0.10 + 0.005 * s
  have h : (FIXED_COST + VARIABLE_COST_PER_EVENT * s) * 10 ^ 4 =
      ((1000 + 50 * s : ℤ) : ℚ) := by
    unfold FIXED_COST VARIABLE_COST_PER_EVENT
    push_cast
    norm_num
    ring
  rw [pyRoundTo_eq_self 4 _ _ h]
  norm_num [FIXED_COST, VARIABLE_COST_PER_EVENT]

/-! ## C2 -/

/-- C2: for every context and every trained model, the integer
returned by `predict_optimal_batch_size` lies in `[20, 200]` and is a
multiple of 10. -/
theorem predict_optimal_batch_size_in_range (o : BatchOptimizer)
    (total_data_kb avg_data_per_event : ℚ) (hour_of_day : ℕ)
    (last_processing_time last_cost_per_event : ℚ)
    (ht : o.is_trained = true) :
    20 ≤ o.predict_optimal_batch_size total_data_kb avg_data_per_event
        hour_of_day last_processing_time last_cost_per_event ∧
    o.predict_optimal_batch_size total_data_kb avg_data_per_event
        hour_of_day last_processing_time last_cost_per_event ≤ 200 ∧
    (10 : ℤ) ∣ o.predict_optimal_batch_size total_data_kb avg_data_per_event
        hour_of_day last_processing_time last_cost_per_event := by
  unfold BatchOptimizer.predict_optimal_batch_size
  rw [ht]
  simp only [Bool.not_true, Bool.false_eq_true, if_false]
  omega

/-- C2 witness: the bounds hold at a concrete trained optimizer and
context (the raw prediction 137 is rounded to 140). -/
theorem predict_optimal_batch_size_in_range_witness :
    trainedO.is_trained = true ∧
    (20 ≤ trainedO.predict_optimal_batch_size 100 15 14 5 0.007 ∧
      trainedO.predict_optimal_batch_size 100 15 14 5 0.007 ≤ 200 ∧
      (10 : ℤ) ∣ trainedO.predict_optimal_batch_size 100 15 14 5 0.007) :=
  ⟨rfl, predict_optimal_batch_size_in_range trainedO 100 15 14 5 0.007 rfl⟩

/-! ## C6 -/

/-- C6 counterexample: a `KeyboardInterrupt` raised inside an
iteration does terminate the loop — `worker.py` `break`s out of it,
and in `optimized_worker.py` the handler's reference to the unbound
name `e` raises `NameError`, which escapes the loop; so it is not the
case that every exception leads to sleep-and-continue. -/
theorem keyboard_interrupt_terminates_loop :
    worker_loop_dispatch (some .keyboardInterrupt) = .breakLoop ∧
    smart_loop_dispatch (some .keyboardInterrupt) = .propagate ∧
    worker_loop_dispatch (some .keyboardInterrupt) ≠ .sleepContinue ∧
    smart_loop_dispatch (some .keyboardInterrupt) ≠ .sleepContinue := by
  decide

/-- C6 amended: every exception of class `Exception` raised inside one
iteration is caught and the loop sleeps the standard interval and
continues, in both workers; but `KeyboardInterrupt` breaks the plain
worker's loop and escapes the smart worker's loop (whose handler
raises `NameError`), and `BaseException`s outside `Exception` escape
both loops. -/
theorem loop_dispatch_behaviour (n : ℕ) :
    worker_loop_dispatch (some (.exceptionClass n)) = .sleepContinue ∧
    smart_loop_dispatch (some (.exceptionClass n)) = .sleepContinue ∧
    worker_loop_dispatch none = .sleepContinue ∧
    smart_loop_dispatch none = .sleepContinue ∧
    worker_loop_dispatch (some .keyboardInterrupt) = .breakLoop ∧
    smart_loop_dispatch (some .keyboardInterrupt) = .propagate ∧
    worker_loop_dispatch (some (.otherBaseException n)) = .propagate ∧
    smart_loop_dispatch (some (.otherBaseException n)) = .propagate :=
  ⟨rfl, rfl, rfl, rfl, rfl, rfl, rfl, rfl⟩

/-! ## C3, C4 and their shared idle-path lemmas -/

/-- A zero unprocessed count means no event passes the
`processed = FALSE` filter. -/
theorem filter_unprocessed_nil {s : Store} (h : unprocessed_count s = 0) :
    s.events.filter (fun e => !e.processed) = [] := by
  unfold unprocessed_count at h
  rwa [List.countP_eq_length_filter, List.length_eq_zero] at h

/-- With zero unprocessed events, `process_batch` is the idle path:
it returns `None` and leaves the store untouched. -/
theorem process_batch_idle (p : BatchProcessor) (s : Store) (now : ℤ) (jitter : ℚ)
    (h : unprocessed_count s = 0) :
    p.process_batch s now jitter = (none, s, []) := by
  unfold BatchProcessor.process_batch BatchProcessor.fetch_unprocessed_events
  rw [filter_unprocessed_nil h]
  simp [sortByTimestamp]

/-- With zero unprocessed events, one smart-worker iteration changes
nothing at all. -/
theorem iteration_idle (w : SmartWorker) (s : Store) (hour : ℕ) (now : ℤ)
    (jitter : ℚ) (h : unprocessed_count s = 0) :
    SmartWorker.iteration w s hour now jitter = (w, s, none) := by
  have hp : ∀ p : BatchProcessor, p.process_batch s now jitter = (none, s, []) :=
    fun p => process_batch_idle p s now jitter h
  simp [SmartWorker.iteration, SmartWorker.get_smart_batch_size, h, hp]

/-- C3: whenever the predictor is not ready (untrained), the size
chosen by `get_smart_batch_size` is the default 50, for every context;
the same default is returned when the pending count is 0 or when no
completed batch exists. -/
theorem fallback_batch_size_fifty (w : SmartWorker) (s : Store) (hour : ℕ) :
    (w.optimizer.is_trained = false → (w.get_smart_batch_size s hour).1 = 50) ∧
    (unprocessed_count s = 0 → (w.get_smart_batch_size s hour).1 = 50) ∧
    (recent_completed_batch s = none → (w.get_smart_batch_size s hour).1 = 50) := by
  unfold SmartWorker.get_smart_batch_size
  by_cases hc : unprocessed_count s = 0
  · simp [hc]
  · cases hr : recent_completed_batch s with
    | none => simp [hc, hr]
    | some b =>
      refine ⟨?_, fun h0 => absurd h0 hc, fun hn => Option.noConfusion hn⟩
      intro ht
      simp [hc, BatchOptimizer.predict_optimal_batch_size, ht]

/-- C3 witness: at a concrete untrained worker and empty store all
three fallback hypotheses hold and the chosen size is 50. -/
theorem fallback_batch_size_fifty_witness :
    untrainedW.optimizer.is_trained = false ∧
    unprocessed_count emptyStore = 0 ∧
    recent_completed_batch emptyStore = none ∧
    (untrainedW.get_smart_batch_size emptyStore 12).1 = 50 :=
  ⟨rfl, rfl, rfl, (fallback_batch_size_fifty untrainedW emptyStore 12).1 rfl⟩

/-- C4: with zero unprocessed events, `process_batch` returns `None`
having created no batch row and written no cost metric, and the worker
loop's iteration leaves the counters, the last-batch timestamp — in
fact the whole worker and store — unchanged. -/
theorem idle_iteration_no_mutation (w : SmartWorker) (p : BatchProcessor)
    (s : Store) (hour : ℕ) (now : ℤ) (jitter : ℚ)
    (h : unprocessed_count s = 0) :
    p.process_batch s now jitter = (none, s, []) ∧
    (SmartWorker.iteration w s hour now jitter).2.2 = none ∧
    (SmartWorker.iteration w s hour now jitter).2.1.batches = s.batches ∧
    (SmartWorker.iteration w s hour now jitter).2.1.cost_metrics = s.cost_metrics ∧
    (SmartWorker.iteration w s hour now jitter).1.stats = w.stats := by
  rw [iteration_idle w s hour now jitter h]
  exact ⟨process_batch_idle p s now jitter h, rfl, rfl, rfl, rfl⟩

/-- C4 witness: the idle path at a concrete worker, processor and
empty store. -/
theorem idle_iteration_no_mutation_witness :
    unprocessed_count emptyStore = 0 ∧
    (BatchProcessor.mk 50).process_batch emptyStore 0 1 = (none, emptyStore, []) ∧
    (SmartWorker.iteration untrainedW emptyStore 12 0 1).2.2 = none :=
  ⟨rfl,
    (idle_iteration_no_mutation untrainedW ⟨50⟩ emptyStore 12 0 1 rfl).1,
    (idle_iteration_no_mutation untrainedW ⟨50⟩ emptyStore 12 0 1 rfl).2.1⟩

/-! ## C10 -/

/-- C10: a non-empty `process_batch` result always reports a positive
`events_processed`, so the division producing `cost_per_event` has a
positive divisor (the empty case exits before any division). -/
theorem process_batch_some_positive (p : BatchProcessor) (s : Store) (now : ℤ)
    (jitter : ℚ) (r : BatchProcessor.BatchResult)
    (h : (p.process_batch s now jitter).1 = some r) :
    0 < r.events_processed ∧
    r.cost_per_event = pyRoundTo 4 (r.cost / r.events_processed) := by
  by_cases hc : (p.fetch_unprocessed_events s none).isEmpty
  · unfold BatchProcessor.process_batch at h
    rw [if_pos hc] at h
    simp at h
  · unfold BatchProcessor.process_batch at h
    rw [if_neg hc] at h
    simp only at h
    obtain rfl : r = _ := (Option.some.inj h).symm
    refine ⟨?_, rfl⟩
    show 0 < (p.fetch_unprocessed_events s none).length
    cases hl : p.fetch_unprocessed_events s none with
    | nil => rw [hl] at hc; simp at hc
    | cons a l => simp

/-- C10 witness: at the concrete one-event store the result is
non-empty with a positive count. -/
theorem process_batch_some_positive_witness :
    ((BatchProcessor.mk 50).process_batch oneEventStore 0 1).1 =
      some oneEventResult ∧
    0 < oneEventResult.events_processed ∧
    oneEventResult.cost_per_event =
      pyRoundTo 4 (oneEventResult.cost / oneEventResult.events_processed) := by
  have h : ((BatchProcessor.mk 50).process_batch oneEventStore 0 1).1 =
      some oneEventResult := by decide
  exact ⟨h, process_batch_some_positive ⟨50⟩ oneEventStore 0 1 oneEventResult h⟩

/-! ## C7 -/

/-- C7 counterexample: marking claims 2 ids of which only 1 matches a
row, so the updated count 1 falls short of the claimed 2, yet the emitted
log is only the unconditional count line — no mismatch warning is
produced anywhere. -/
theorem mark_emits_no_mismatch_warning :
    (BatchProcessor.mark_events_as_processed oneEventStore [1, 2] 7).2.1 = 1 ∧
    (1 : ℕ) < 2 ∧
    (BatchProcessor.mark_events_as_processed oneEventStore [1, 2] 7).2.2 =
      [.markedProcessed 1] ∧
    LogEntry.mismatchWarning 2 1 ∉
      (BatchProcessor.mark_events_as_processed oneEventStore [1, 2] 7).2.2 := by
  decide

/-- C7 amended: step 6 logs only the count of rows actually updated,
performing no comparison against the claimed size (no mismatch warning
exists in the code); and the batch is always finalized as `completed`
with duration, cost and completion timestamp recorded, unconditionally
on that count — no rollback, no retry. -/
theorem mark_logs_count_and_batch_finalized (s : Store) (ids : List ℕ) (bid : ℕ)
    (p : BatchProcessor) (s0 : Store) (now : ℤ) (jitter : ℚ)
    (r : BatchProcessor.BatchResult)
    (h : (p.process_batch s0 now jitter).1 = some r) :
    (BatchProcessor.mark_events_as_processed s ids bid).2.2 =
      [.markedProcessed (BatchProcessor.mark_events_as_processed s ids bid).2.1] ∧
    ∃ b, b ∈ (p.process_batch s0 now jitter).2.1.batches ∧
      b.id = r.batch_id ∧ b.status = .completed ∧
      b.processing_time_seconds = some r.processing_time ∧
      b.processing_cost = some r.cost ∧ b.completed_at = some now := by
  refine ⟨rfl, ?_⟩
  by_cases hc : (p.fetch_unprocessed_events s0 none).isEmpty
  · unfold BatchProcessor.process_batch at h
    rw [if_pos hc] at h
    simp at h
  · unfold BatchProcessor.process_batch at h ⊢
    rw [if_neg hc] at h ⊢
    simp only [BatchProcessor.create_batch_record,
      BatchProcessor.mark_events_as_processed, BatchProcessor.update_batch_record,
      BatchProcessor.save_cost_metrics, Option.some.injEq] at h ⊢
    subst h
    refine ⟨_, List.mem_map_of_mem _
      (List.mem_append_right _ (List.mem_singleton_self _)), ?_⟩
    simp

/-- C7 witness: the amended statement at the concrete one-event run. -/
theorem mark_logs_count_and_batch_finalized_witness :
    (BatchProcessor.mark_events_as_processed oneEventStore [1] 1).2.2 =
      [.markedProcessed
        (BatchProcessor.mark_events_as_processed oneEventStore [1] 1).2.1] ∧
    ∃ b, b ∈ ((BatchProcessor.mk 50).process_batch oneEventStore 0 1).2.1.batches ∧
      b.id = oneEventResult.batch_id ∧ b.status = .completed ∧
      b.processing_time_seconds = some oneEventResult.processing_time ∧
      b.processing_cost = some oneEventResult.cost ∧
      b.completed_at = some 0 := by
  have h : ((BatchProcessor.mk 50).process_batch oneEventStore 0 1).1 =
      some oneEventResult := by decide
  exact mark_logs_count_and_batch_finalized oneEventStore [1] 1 ⟨50⟩
    oneEventStore 0 1 oneEventResult h

/-! ## C8 -/

/-- C8: the concrete scenario — 23 pending items totaling 460 KB with
the default size 50 — yields exactly one batch (id 1, declared size
23) containing all 23 items, `events_processed = 23`, `cost = 0.215`,
and afterwards all 23 events are flagged processed with batch
reference 1, for every timing realization. -/
theorem scenario_23_events (now : ℤ) (jitter : ℚ) :
    ((BatchProcessor.mk 50).process_batch store23 now jitter).1.map
        (·.events_processed) = some 23 ∧
    ((BatchProcessor.mk 50).process_batch store23 now jitter).1.map
        (·.cost) = some 0.215 ∧
    ((BatchProcessor.mk 50).process_batch store23 now jitter).1.map
        (·.batch_id) = some 1 ∧
    ((BatchProcessor.mk 50).process_batch store23 now jitter).1.map
        (·.total_data_kb) = some 460 ∧
    ((BatchProcessor.mk 50).process_batch store23 now jitter).2.1.batches.map
        (·.batch_size) = [23] ∧
    ((BatchProcessor.mk 50).process_batch store23 now jitter).2.1.events.countP
        (fun e => e.processed && decide (e.batch_id = some 1)) = 23 ∧
    ((BatchProcessor.mk 50).process_batch store23 now jitter).2.1.events.length
        = 23 := by
  exact ⟨rfl, rfl, rfl, rfl, rfl, rfl, rfl⟩

/-! ## C5 -/

/-- C5 counterexample: in an iteration whose predictor is not ready
(untrained, so the fallback 50 decides the size), the
`ml_predictions_used` counter is nevertheless incremented — the source
bumps it unconditionally after the `predict_optimal_batch_size` call. -/
theorem ml_predictions_used_incremented_though_untrained :
    untrainedW.optimizer.is_trained = false ∧
    untrainedW.stats.ml_predictions_used = 0 ∧
    ((SmartWorker.iteration untrainedW oneEventOneBatchStore 12 0 1).1).stats.ml_predictions_used
      = 1 := by
  refine ⟨rfl, rfl, ?_⟩
  decide

/-- The stats returned by `get_smart_batch_size` differ from the
incoming ones exactly by the `ml_predictions_used` bump, which happens
iff the pending count is non-zero and a completed batch exists —
independently of whether the model is trained. -/
theorem get_smart_batch_size_stats (w : SmartWorker) (s : Store) (hour : ℕ) :
    (w.get_smart_batch_size s hour).2 =
      { w.stats with
        ml_predictions_used := w.stats.ml_predictions_used +
          (if unprocessed_count s ≠ 0 ∧ (recent_completed_batch s).isSome
            then 1 else 0) } := by
  unfold SmartWorker.get_smart_batch_size
  by_cases hc : unprocessed_count s = 0
  · simp [hc]
  · cases hr : recent_completed_batch s with
    | none => simp [hc, hr]
    | some b => simp [hc, hr]

/-- One iteration never touches `ml_predictions_used` beyond what
`get_smart_batch_size` did to it. -/
theorem iteration_ml_predictions (w : SmartWorker) (s : Store) (hour : ℕ)
    (now : ℤ) (jitter : ℚ) :
    ((SmartWorker.iteration w s hour now jitter).1).stats.ml_predictions_used =
      ((w.get_smart_batch_size s hour).2).ml_predictions_used := by
  unfold SmartWorker.iteration
  rcases hg : w.get_smart_batch_size s hour with ⟨bs, st⟩
  rcases hp : (BatchProcessor.mk bs.toNat).process_batch s now jitter
    with ⟨res, s2, log⟩
  cases res <;> simp [hg, hp]

/-- An iteration returning the empty result leaves the four
batch-outcome stats unchanged. -/
theorem iteration_none_frame (w : SmartWorker) (s : Store) (hour : ℕ)
    (now : ℤ) (jitter : ℚ)
    (h : (SmartWorker.iteration w s hour now jitter).2.2 = none) :
    ((SmartWorker.iteration w s hour now jitter).1).stats.total_batches_processed
        = w.stats.total_batches_processed ∧
    ((SmartWorker.iteration w s hour now jitter).1).stats.total_events_processed
        = w.stats.total_events_processed ∧
    ((SmartWorker.iteration w s hour now jitter).1).stats.total_cost
        = w.stats.total_cost ∧
    ((SmartWorker.iteration w s hour now jitter).1).stats.last_batch_at
        = w.stats.last_batch_at := by
  have hst := get_smart_batch_size_stats w s hour
  unfold SmartWorker.iteration at h ⊢
  rcases hg : w.get_smart_batch_size s hour with ⟨bs, st⟩
  rw [hg] at hst
  rcases hp : (BatchProcessor.mk bs.toNat).process_batch s now jitter
    with ⟨res, s2, log⟩
  cases res with
  | some r => simp [hg, hp] at h
  | none =>
    replace hst : st = _ := hst
    subst hst
    simp [hg, hp]

/-- C5 amended: `ml_predictions_used` is incremented exactly when the
sizing step reaches the predictor call — pending count non-zero and a
completed batch present — whether or not the predictor is ready; and
an iteration whose `process_batch` returns empty leaves the cumulative
counters and last-batch timestamp unchanged. -/
theorem ml_predictions_used_semantics (w : SmartWorker) (s : Store) (hour : ℕ)
    (now : ℤ) (jitter : ℚ) :
    ((SmartWorker.iteration w s hour now jitter).1).stats.ml_predictions_used =
      w.stats.ml_predictions_used +
        (if unprocessed_count s ≠ 0 ∧ (recent_completed_batch s).isSome
          then 1 else 0) ∧
    ((SmartWorker.iteration w s hour now jitter).2.2 = none →
      ((SmartWorker.iteration w s hour now jitter).1).stats.total_batches_processed
          = w.stats.total_batches_processed ∧
      ((SmartWorker.iteration w s hour now jitter).1).stats.total_events_processed
          = w.stats.total_events_processed ∧
      ((SmartWorker.iteration w s hour now jitter).1).stats.total_cost
          = w.stats.total_cost ∧
      ((SmartWorker.iteration w s hour now jitter).1).stats.last_batch_at
          = w.stats.last_batch_at) := by
  refine ⟨?_, iteration_none_frame w s hour now jitter⟩
  rw [iteration_ml_predictions, get_smart_batch_size_stats]

/-- C5 witness: the empty-result implication applied at a concrete
idle iteration. -/
theorem ml_predictions_used_semantics_witness :
    (SmartWorker.iteration untrainedW emptyStore 12 0 1).2.2 = none ∧
    ((SmartWorker.iteration untrainedW emptyStore 12 0 1).1).stats.total_batches_processed
        = untrainedW.stats.total_batches_processed := by
  have h : (SmartWorker.iteration untrainedW emptyStore 12 0 1).2.2 = none := rfl
  exact ⟨h, ((ml_predictions_used_semantics untrainedW emptyStore 12 0 1).2 h).1⟩

/-! ## C9 -/

/-- C9: `stop()` then `start()` resets `started_at` (hence the derived
`runtime_seconds`) to the new run's start, while the cumulative
counters `total_batches_processed`, `total_events_processed` and
`total_cost` keep their values from before the stop. -/
theorem stop_start_resets_started_at_preserves_counters
    (w : BackgroundWorker) (now2 t : ℤ) :
    ((w.stop).start now2).stats.started_at = some now2 ∧
    (((w.stop).start now2).get_stats t).runtime_seconds = some (t - now2) ∧
    ((w.stop).start now2).stats.total_batches_processed =
      w.stats.total_batches_processed ∧
    ((w.stop).start now2).stats.total_events_processed =
      w.stats.total_events_processed ∧
    ((w.stop).start now2).stats.total_cost = w.stats.total_cost := by
  unfold BackgroundWorker.start BackgroundWorker.stop BackgroundWorker.get_stats
  by_cases h : w.is_running <;> simp [h]

end DataProc
